import Mathlib

/-!
# Verification of MouseMovester (`src/MouseMovester.py`)

Shallow embedding of the coordinate-generation, region-avoidance and
loop/lifecycle logic of `RandomMouseMover`.  Machine randomness is modelled by
an explicit seed argument: `random.randint(a, b)` becomes a function of the
seed that returns `none` exactly when Python would raise `ValueError`
(inverted range).  Python's exception hierarchy is modelled just enough to
distinguish `KeyboardInterrupt` (not a subclass of `Exception`) from
`pyautogui.FailSafeException` and all other `Exception` subclasses.
-/

namespace MouseMovester

/-- Screen bounds of the primary monitor, as resolved once at startup
(`get_primary_monitor_size`). -/
structure ScreenBounds where
  width : Int
  height : Int
deriving DecidableEq, Repr

/-- A rectangle `(left, top, right, bottom)` in pixel coordinates, as appended
to `self.avoid_regions`. -/
structure AvoidRegion where
  left : Int
  top : Int
  right : Int
  bottom : Int
deriving DecidableEq, Repr

/-- `random.randint(lo, hi)` with an explicit seed `r`: returns an integer in
`[lo, hi]` when `lo ≤ hi`, and `none` (Python raises `ValueError`) when the
range is inverted. -/
def randint (lo hi : Int) (r : Nat) : Option Int :=
  if lo ≤ hi then some (lo + (r : Int) % (hi - lo + 1)) else none

/-- The hardcoded margin of `get_random_position` (`margin = 50`). -/
def margin : Int := 50

/-- `RandomMouseMover.get_random_position`: draws
`x = random.randint(margin, screen_width - margin)` and
`y = random.randint(margin, screen_height - margin)`; `none` models the
`ValueError` escape when a range is inverted. -/
def get_random_position (b : ScreenBounds) (rx ry : Nat) : Option (Int × Int) :=
  match randint margin (b.width - margin) rx with
  | none => none
  | some x =>
    match randint margin (b.height - margin) ry with
    | none => none
    | some y => some (x, y)

/-- `RandomMouseMover._define_avoid_regions`: the three rectangles appended in
order: top-right window-control strip, bottom-left start-menu strip, and the
full-width taskbar strip. -/
def define_avoid_regions (b : ScreenBounds) : List AvoidRegion :=
  let button_width : Int := 50
  let top_bar_height : Int := 30
  let regions : List AvoidRegion :=
    [⟨b.width - 3 * button_width, 0, b.width, top_bar_height⟩]
  let taskbar_height : Int := 40
  let start_menu_width : Int := 100
  let regions := regions ++
    [⟨0, b.height - taskbar_height, start_menu_width, b.height⟩]
  let regions := regions ++
    [⟨0, b.height - taskbar_height, b.width, b.height⟩]
  regions

/-- `RandomMouseMover.is_position_in_avoid_region`: scans the region list and
returns `true` on the first region with `left <= x <= right and
top <= y <= bottom` (inclusive on all four edges), else `false`. -/
def is_position_in_avoid_region (regions : List AvoidRegion) (x y : Int) : Bool :=
  regions.any fun r =>
    decide (r.left ≤ x) && decide (x ≤ r.right) &&
    decide (r.top ≤ y) && decide (y ≤ r.bottom)

/-- The exception kinds the program distinguishes: `pyautogui.FailSafeException`
and generic errors are subclasses of Python's `Exception`; `KeyboardInterrupt`
is not (it derives from `BaseException` only). -/
inductive Exc
  | failSafe
  | keyboardInterrupt
  | otherError
deriving DecidableEq, Repr

/-- Whether `except Exception` catches this exception: everything except
`KeyboardInterrupt`. -/
def isExceptionClass : Exc → Bool
  | .keyboardInterrupt => false
  | _ => true

/-- The nondeterministic inputs of one cycle: the two `randint` seeds and the
outcome of the `pyautogui.moveTo` and `pyautogui.click` calls (`none` = the
call returns normally, `some e` = the call raises `e`). -/
structure CycleEnv where
  rx : Nat
  ry : Nat
  moveExc : Option Exc
  clickExc : Option Exc
deriving DecidableEq, Repr

/-- Observable outcome of one `move_mouse_and_click` call: how many random
points were generated, whether the cycle was skipped by the avoidance check,
whether the pointer move and the click completed, whether the
`except Exception` handler logged an error, and which exception (if any)
escaped the method. -/
structure CycleResult where
  randCalls : Nat
  skippedAvoid : Bool
  moved : Bool
  clicked : Bool
  loggedError : Bool
  escaped : Option Exc
deriving DecidableEq, Repr

/-- `RandomMouseMover.move_mouse_and_click`, parametrised by the object's
resolved bounds and `avoid_regions` field.  The whole body runs inside
`try ... except Exception`, so every raised exception other than
`KeyboardInterrupt` — including `FailSafeException` — is caught and logged
here and never escapes. -/
def move_mouse_and_click (b : ScreenBounds) (regions : List AvoidRegion)
    (env : CycleEnv) : CycleResult :=
  match get_random_position b env.rx env.ry with
  | none =>
      -- randint raised ValueError; caught by `except Exception`
      { randCalls := 1, skippedAvoid := false, moved := false, clicked := false,
        loggedError := true, escaped := none }
  | some (x, y) =>
    if is_position_in_avoid_region regions x y then
      -- early return: skip this cycle, no move, no click
      { randCalls := 1, skippedAvoid := true, moved := false, clicked := false,
        loggedError := false, escaped := none }
    else
      match env.moveExc with
      | some e =>
        if isExceptionClass e then
          { randCalls := 1, skippedAvoid := false, moved := false,
            clicked := false, loggedError := true, escaped := none }
        else
          { randCalls := 1, skippedAvoid := false, moved := false,
            clicked := false, loggedError := false, escaped := some e }
      | none =>
        match env.clickExc with
        | some e =>
          if isExceptionClass e then
            { randCalls := 1, skippedAvoid := false, moved := true,
              clicked := false, loggedError := true, escaped := none }
          else
            { randCalls := 1, skippedAvoid := false, moved := true,
              clicked := false, loggedError := false, escaped := some e }
        | none =>
          { randCalls := 1, skippedAvoid := false, moved := true,
            clicked := true, loggedError := false, escaped := none }

/-- The shared mutable state of `RandomMouseMover`: the `running` flag and the
background thread slot (`none` = no thread created yet, `some id` = the id of
the spawned thread). -/
structure MoverState where
  running : Bool
  thread : Option Nat
deriving DecidableEq, Repr

/-- One iteration of `mouse_mover_loop` under exception environment `env`:
returns the state after the iteration and whether the loop proceeds to another
iteration.  An exception escaping `move_mouse_and_click` is handled by one of
the three loop handlers, each of which calls `self.stop()` and breaks. -/
def mouse_mover_loop_step (st : MoverState) (b : ScreenBounds)
    (regions : List AvoidRegion) (env : CycleEnv) : MoverState × Bool :=
  if st.running then
    let r := move_mouse_and_click b regions env
    match r.escaped with
    | some _ => ({ st with running := false }, false)
    | none => (st, st.running)
  else
    (st, false)

/-- `RandomMouseMover.start`, with `fresh` the id of the thread that
`threading.Thread(...)` would create: a no-op when already running, otherwise
sets `running`, stores the new thread and starts it.  The returned `Bool`
records whether a new thread was spawned. -/
def start (st : MoverState) (fresh : Nat) : MoverState × Bool :=
  if st.running then
    (st, false)
  else
    ({ running := true, thread := some fresh }, true)

/-- The bounded join timeout of `RandomMouseMover.stop`
(`self.thread.join(timeout=1)`). -/
def stop_join_timeout : Nat := 1

/-- `RandomMouseMover.stop`, with `alive` the value `self.thread.is_alive()`
would return: clears `running`, and joins the thread with the bounded timeout
when a live thread exists.  The second component records the timeout passed to
`join` (`none` = no join performed); `stop` returns in either case. -/
def stop (st : MoverState) (alive : Bool) : MoverState × Option Nat :=
  ({ st with running := false },
   if st.thread.isSome && alive then some stop_join_timeout else none)

/-! ## Helper lemmas -/

/-- `randint` succeeds exactly on non-inverted ranges, with a value in
`[lo, hi]`. -/
theorem randint_mem {lo hi : Int} (r : Nat) (h : lo ≤ hi) :
    ∃ v, randint lo hi r = some v ∧ lo ≤ v ∧ v ≤ hi := by
  refine ⟨lo + (r : Int) % (hi - lo + 1), ?_, ?_, ?_⟩
  · simp [randint, h]
  · have h0 : 0 ≤ (r : Int) % (hi - lo + 1) :=
      Int.emod_nonneg _ (by omega)
    omega
  · have h1 : (r : Int) % (hi - lo + 1) < hi - lo + 1 :=
      Int.emod_lt_of_pos _ (by omega)
    omega

/-- `randint` fails exactly on inverted ranges. -/
theorem randint_eq_none (lo hi : Int) (r : Nat) :
    randint lo hi r = none ↔ hi < lo := by
  unfold randint
  by_cases h : lo ≤ hi
  · simp only [if_pos h]
    constructor
    · intro hc; exact absurd hc (by simp)
    · intro hc; omega
  · simp only [if_neg h]
    constructor
    · intro _; omega
    · intro _; trivial

/-! ## Claims -/

/-- **C4**: the avoidance-region builder is a pure function of `ScreenBounds`
(a Lean `def` with no other inputs), and at 1920×1080 it produces exactly the
ordered sequence containing the top-right rectangle (1770, 0, 1920, 30), the
bottom-left rectangle (0, 1040, 100, 1080) and the full taskbar rectangle
(0, 1040, 1920, 1080). -/
theorem define_avoid_regions_1920_1080 :
    define_avoid_regions ⟨1920, 1080⟩ =
      [⟨1770, 0, 1920, 30⟩, ⟨0, 1040, 100, 1080⟩, ⟨0, 1040, 1920, 1080⟩] := by
  decide

/-- **C5**: the classifier returns `true` exactly when some region of the list
contains the point with inclusive bounds on all four edges; under the
1920×1080 region set, (1800, 15) is avoided and (960, 540) is not. -/
theorem is_position_in_avoid_region_spec :
    (∀ (regions : List AvoidRegion) (x y : Int),
        is_position_in_avoid_region regions x y = true ↔
          ∃ r ∈ regions,
            r.left ≤ x ∧ x ≤ r.right ∧ r.top ≤ y ∧ y ≤ r.bottom) ∧
    is_position_in_avoid_region (define_avoid_regions ⟨1920, 1080⟩) 1800 15
      = true ∧
    is_position_in_avoid_region (define_avoid_regions ⟨1920, 1080⟩) 960 540
      = false := by
  refine ⟨?_, by decide, by decide⟩
  intro regions x y
  simp [is_position_in_avoid_region, List.any_eq_true, and_assoc]

/-- **C1**: for every `ScreenBounds` with width > 100 and height > 100 and
every pair of seeds, `get_random_position` returns a point with
`margin ≤ x ≤ width - margin` and `margin ≤ y ≤ height - margin`
(margin = 50). -/
theorem get_random_position_in_bounds (b : ScreenBounds) (rx ry : Nat)
    (hw : 100 < b.width) (hh : 100 < b.height) :
    ∃ x y, get_random_position b rx ry = some (x, y) ∧
      margin ≤ x ∧ x ≤ b.width - margin ∧
      margin ≤ y ∧ y ≤ b.height - margin := by
  have hm : margin = 50 := rfl
  obtain ⟨x, hx, hx1, hx2⟩ :=
    @randint_mem margin (b.width - margin) rx (by omega)
  obtain ⟨y, hy, hy1, hy2⟩ :=
    @randint_mem margin (b.height - margin) ry (by omega)
  exact ⟨x, y, by simp [get_random_position, hx, hy], hx1, hx2, hy1, hy2⟩

/-- Witness for C1 at bounds 1920×1080 with both seeds 0. -/
theorem get_random_position_in_bounds_witness :
    100 < (ScreenBounds.mk 1920 1080).width ∧
    100 < (ScreenBounds.mk 1920 1080).height ∧
    ∃ x y, get_random_position ⟨1920, 1080⟩ 0 0 = some (x, y) ∧
      margin ≤ x ∧ x ≤ (ScreenBounds.mk 1920 1080).width - margin ∧
      margin ≤ y ∧ y ≤ (ScreenBounds.mk 1920 1080).height - margin :=
  ⟨by decide, by decide,
    get_random_position_in_bounds ⟨1920, 1080⟩ 0 0 (by decide) (by decide)⟩

/-- **C9, counterexample**: the claim says every dimension with
`margin * 2 ≥ dimension` makes the random-range call invalid, but at
dimension 100 (`margin * 2 = 100 ≥ 100`) the range is `[50, 50]`, which is
valid: the generator succeeds and returns (50, 50). -/
theorem get_random_position_defined_at_100 :
    2 * margin ≥ 100 ∧
    get_random_position ⟨100, 100⟩ 0 0 = some (50, 50) := by
  decide

/-- **C9, amended**: the generator fails exactly when some dimension is
strictly below `2 * margin` (the `randint` range is inverted there and the
source does not guard it); at dimensions ≥ `2 * margin` it is defined. -/
theorem get_random_position_fails_iff (b : ScreenBounds) (rx ry : Nat) :
    get_random_position b rx ry = none ↔
      b.width < 2 * margin ∨ b.height < 2 * margin := by
  have hm : margin = 50 := rfl
  by_cases hw : margin ≤ b.width - margin
  · obtain ⟨x, hx, _, _⟩ := randint_mem rx hw
    by_cases hh : margin ≤ b.height - margin
    · obtain ⟨y, hy, _, _⟩ := randint_mem ry hh
      simp only [get_random_position, hx, hy]
      constructor
      · intro h; exact absurd h (by simp)
      · intro h; omega
    · have hy : randint margin (b.height - margin) ry = none :=
        (randint_eq_none _ _ _).mpr (by omega)
      simp only [get_random_position, hx, hy]
      constructor
      · intro _; omega
      · intro _; trivial
  · have hx : randint margin (b.width - margin) rx = none :=
      (randint_eq_none _ _ _).mpr (by omega)
    simp only [get_random_position, hx]
    constructor
    · intro _; omega
    · intro _; trivial

/-- **C2, counterexample**: at bounds 1920×1080 with seeds (910, 490) the
candidate is (960, 540) (not avoided); when `pyautogui.moveTo` raises a
generic exception, the exception is caught and logged inside
`move_mouse_and_click`, nothing escapes, and the loop step leaves
`running = true` and continues with further cycles — the loop does NOT
terminate as the claim states. -/
theorem move_error_loop_continues_cex :
    move_mouse_and_click ⟨1920, 1080⟩ (define_avoid_regions ⟨1920, 1080⟩)
        ⟨910, 490, some Exc.otherError, none⟩ =
      { randCalls := 1, skippedAvoid := false, moved := false, clicked := false,
        loggedError := true, escaped := none } ∧
    mouse_mover_loop_step ⟨true, some 0⟩ ⟨1920, 1080⟩
        (define_avoid_regions ⟨1920, 1080⟩)
        ⟨910, 490, some Exc.otherError, none⟩ =
      (⟨true, some 0⟩, true) := by
  decide

/-- **C2, amended**: a generic (non-failsafe, non-KeyboardInterrupt) exception
raised by the pointer move or click is caught and logged inside
`move_mouse_and_click` and the rest of the cycle is abandoned (no click), but
the loop is not terminated: the running flag is unchanged and the loop
proceeds to the next cycle. -/
theorem cycle_exception_logged_and_loop_resumes (b : ScreenBounds)
    (regions : List AvoidRegion) (env : CycleEnv) (st : MoverState)
    (x y : Int)
    (hpos : get_random_position b env.rx env.ry = some (x, y))
    (havoid : is_position_in_avoid_region regions x y = false)
    (hexc : env.moveExc = some Exc.otherError ∨
            (env.moveExc = none ∧ env.clickExc = some Exc.otherError))
    (hrun : st.running = true) :
    (move_mouse_and_click b regions env).loggedError = true ∧
    (move_mouse_and_click b regions env).clicked = false ∧
    (move_mouse_and_click b regions env).escaped = none ∧
    mouse_mover_loop_step st b regions env = (st, true) := by
  have hres : move_mouse_and_click b regions env =
      { randCalls := 1, skippedAvoid := false,
        moved := decide (env.moveExc = none), clicked := false,
        loggedError := true, escaped := none } := by
    rcases hexc with hmove | ⟨hmove, hclick⟩
    · simp [move_mouse_and_click, hpos, havoid, hmove, isExceptionClass]
    · simp [move_mouse_and_click, hpos, havoid, hmove, hclick, isExceptionClass]
  refine ⟨by rw [hres], by rw [hres], by rw [hres], ?_⟩
  simp [mouse_mover_loop_step, hrun, hres]

/-- Witness for the amended C2 at bounds 1920×1080, candidate (960, 540),
`moveTo` raising a generic exception. -/
theorem cycle_exception_logged_and_loop_resumes_witness :
    get_random_position ⟨1920, 1080⟩ 910 490 = some (960, 540) ∧
    is_position_in_avoid_region (define_avoid_regions ⟨1920, 1080⟩) 960 540
      = false ∧
    (move_mouse_and_click ⟨1920, 1080⟩ (define_avoid_regions ⟨1920, 1080⟩)
        ⟨910, 490, some Exc.otherError, none⟩).loggedError = true ∧
    (move_mouse_and_click ⟨1920, 1080⟩ (define_avoid_regions ⟨1920, 1080⟩)
        ⟨910, 490, some Exc.otherError, none⟩).clicked = false ∧
    (move_mouse_and_click ⟨1920, 1080⟩ (define_avoid_regions ⟨1920, 1080⟩)
        ⟨910, 490, some Exc.otherError, none⟩).escaped = none ∧
    mouse_mover_loop_step ⟨true, some 1⟩ ⟨1920, 1080⟩
        (define_avoid_regions ⟨1920, 1080⟩)
        ⟨910, 490, some Exc.otherError, none⟩ =
      (⟨true, some 1⟩, true) :=
  ⟨by decide, by decide,
    by
      have h := cycle_exception_logged_and_loop_resumes ⟨1920, 1080⟩
        (define_avoid_regions ⟨1920, 1080⟩)
        ⟨910, 490, some Exc.otherError, none⟩ ⟨true, some 1⟩ 960 540
        (by decide) (by decide) (Or.inl rfl) rfl
      exact ⟨h.1, h.2.1, h.2.2.1, h.2.2.2⟩⟩

/-- **C3 (code bug)**: when `pyautogui.moveTo` raises `FailSafeException`
(pointer driven to the sentinel top-left corner), the broad
`except Exception` inside `move_mouse_and_click` catches it — since
`FailSafeException` is a subclass of `Exception` — logs a generic error and
returns normally.  The loop's dedicated failsafe handler never fires:
`running` stays `true` and the loop continues, contradicting the module
docstring ("To stop the program, move the mouse cursor to the top-left
corner") and the unreachable handler in `mouse_mover_loop`. -/
theorem failsafe_swallowed_loop_continues :
    move_mouse_and_click ⟨1920, 1080⟩ (define_avoid_regions ⟨1920, 1080⟩)
        ⟨910, 490, some Exc.failSafe, none⟩ =
      { randCalls := 1, skippedAvoid := false, moved := false, clicked := false,
        loggedError := true, escaped := none } ∧
    mouse_mover_loop_step ⟨true, some 3⟩ ⟨1920, 1080⟩
        (define_avoid_regions ⟨1920, 1080⟩)
        ⟨910, 490, some Exc.failSafe, none⟩ =
      (⟨true, some 3⟩, true) := by
  decide

/-- **C6**: when the generated candidate is classified as avoided, the cycle
is skipped entirely: exactly one candidate is generated, no move, no click,
no error, nothing escapes. -/
theorem avoided_cycle_skipped (b : ScreenBounds) (regions : List AvoidRegion)
    (env : CycleEnv) (x y : Int)
    (hpos : get_random_position b env.rx env.ry = some (x, y))
    (havoid : is_position_in_avoid_region regions x y = true) :
    move_mouse_and_click b regions env =
      { randCalls := 1, skippedAvoid := true, moved := false, clicked := false,
        loggedError := false, escaped := none } := by
  simp [move_mouse_and_click, hpos, havoid]

/-- Witness for C6: an object whose `avoid_regions` field holds a rectangle
covering the whole screen, so the candidate (960, 540) is avoided. -/
theorem avoided_cycle_skipped_witness :
    get_random_position ⟨1920, 1080⟩ 910 490 = some (960, 540) ∧
    is_position_in_avoid_region [⟨0, 0, 2000, 2000⟩] 960 540 = true ∧
    move_mouse_and_click ⟨1920, 1080⟩ [⟨0, 0, 2000, 2000⟩]
        ⟨910, 490, none, none⟩ =
      { randCalls := 1, skippedAvoid := true, moved := false, clicked := false,
        loggedError := false, escaped := none } :=
  ⟨by decide, by decide,
    avoided_cycle_skipped ⟨1920, 1080⟩ [⟨0, 0, 2000, 2000⟩]
      ⟨910, 490, none, none⟩ 960 540 (by decide) (by decide)⟩

/-- **C7**: calling `start` while already running is a no-op: the state
(running flag and stored thread) is unchanged and no new thread is spawned. -/
theorem start_noop_when_running (st : MoverState) (fresh : Nat)
    (h : st.running = true) :
    start st fresh = (st, false) := by
  simp [start, h]

/-- Witness for C7: a running mover with thread id 0; `start` with fresh id 7
spawns nothing and changes nothing. -/
theorem start_noop_when_running_witness :
    (MoverState.mk true (some 0)).running = true ∧
    start ⟨true, some 0⟩ 7 = (⟨true, some 0⟩, false) :=
  ⟨rfl, start_noop_when_running ⟨true, some 0⟩ 7 rfl⟩

/-- **C8**: after `start` followed immediately by `stop`, the running flag
reads `false` once `stop` returns, and `stop` either performs no join or joins
with exactly the bounded timeout (1 second), returning in every case —
whether or not the task is still alive. -/
theorem start_then_stop_running_false (st : MoverState) (fresh : Nat)
    (alive : Bool) :
    ((stop (start st fresh).1 alive).1).running = false ∧
    ((stop (start st fresh).1 alive).2 = none ∨
     (stop (start st fresh).1 alive).2 = some stop_join_timeout) := by
  refine ⟨by simp [stop], ?_⟩
  by_cases h : ((start st fresh).1.thread.isSome && alive) = true
  · right; simp [stop, h]
  · left; simp [stop, h]

/-- **C10**: whenever width ≥ 100, the bottom-left region is contained in the
full taskbar region, so deleting the second region from the list built by
`define_avoid_regions` never changes the classifier's verdict. -/
theorem second_region_redundant (b : ScreenBounds) (hw : 100 ≤ b.width)
    (x y : Int) :
    is_position_in_avoid_region ((define_avoid_regions b).eraseIdx 1) x y =
      is_position_in_avoid_region (define_avoid_regions b) x y := by
  have hall : define_avoid_regions b =
      [⟨b.width - 150, 0, b.width, 30⟩,
       ⟨0, b.height - 40, 100, b.height⟩,
       ⟨0, b.height - 40, b.width, b.height⟩] := rfl
  have herase : (define_avoid_regions b).eraseIdx 1 =
      [⟨b.width - 150, 0, b.width, 30⟩,
       ⟨0, b.height - 40, b.width, b.height⟩] := rfl
  rw [herase, hall, Bool.eq_iff_iff]
  simp only [is_position_in_avoid_region, List.any_cons, List.any_nil,
    Bool.or_eq_true, Bool.and_eq_true, decide_eq_true_eq, Bool.or_false]
  omega

/-- Witness for C10 at bounds 1920×1080 and a point inside both the
bottom-left and taskbar regions. -/
theorem second_region_redundant_witness :
    100 ≤ (ScreenBounds.mk 1920 1080).width ∧
    is_position_in_avoid_region
        ((define_avoid_regions ⟨1920, 1080⟩).eraseIdx 1) 50 1050 =
      is_position_in_avoid_region (define_avoid_regions ⟨1920, 1080⟩) 50 1050 :=
  ⟨by decide, second_region_redundant ⟨1920, 1080⟩ (by decide) 50 1050⟩

end MouseMovester
